import Mathlib

/-!
Shallow embedding of the scrypted router network plan compiler.

The embedding follows the latest revision of the repository sources:
`src/networks.ts` (class `Networks`, method `regenerateInterfaces`,
`createDevice`, `validateNetworkUnused`), `src/nftables.ts`
(`addMasquerade`, `addWanGateway`, `flushChains`, `addPortForward`),
`src/vlan.ts` (storage settings, `mapPut` validation hooks) and
`src/interface-name.ts` (`getInterfaceName`).

JavaScript idioms are made explicit:
  * `undefined`-able values become `Option`;
  * JS falsiness checks (`!x`) on numbers treat `0` and `undefined` as
    false, on strings the empty string and `undefined`;
  * the mutable `Set<string>` collecting nftables fragments becomes an
    insertion-ordered duplicate-free list (`addUnique`);
  * the mutable `Map<string, number>` of routing tables becomes an
    association list with JS `Map.set` replace-or-append semantics;
  * in-place mutation of a network's stored `addresses` array
    (`splice`) is modelled by returning the updated network record.
-/

namespace Router

/-- JS falsiness of a `number | undefined` value (`!x`). -/
def jsFalsyNat (v : Option Nat) : Bool :=
  v == none || v == some 0

/-- JS falsiness of a `string | undefined` value (`!x`). -/
def jsFalsyStr (v : Option String) : Bool :=
  v == none || v == some ""

/-- JS truthiness of a `string | undefined` value. -/
def jsTruthyStr (v : Option String) : Bool :=
  !(jsFalsyStr v)

/-- JS template interpolation of a possibly-undefined string
(`undefined` renders as the text "undefined"). -/
def jsStr (v : Option String) : String :=
  v.getD "undefined"

/-- JS template interpolation of a possibly-undefined number. -/
def jsNatStr : Option Nat → String
  | none => "undefined"
  | some n => toString n

/-- `address.split('/')[0]`: the bare IP of a CIDR string; the whole
string when no slash is present. -/
def bareIp (address : String) : String :=
  (address.splitOn "/").headD address

/-- Model of Node's `net.isIPv4`: four dot-separated decimal octets,
each 0..255, digits only, no leading zeros. -/
def validOctet (s : String) : Bool :=
  0 < s.length && s.all Char.isDigit &&
  (s.toNat?.getD 256) ≤ 255 && (s == "0" || s.front != '0')

/-- Model of Node's `net.isIPv4` (external library function). -/
def isIPv4 (s : String) : Bool :=
  (s.splitOn ".").length == 4 && (s.splitOn ".").all validOctet

/-- Hexadecimal digit test. -/
def isHexChar (c : Char) : Bool :=
  c.isDigit || ('a' ≤ c && c ≤ 'f') || ('A' ≤ c && c ≤ 'F')

/-- Model of Node's `net.isIPv6` (external library function): contains
a colon and only hexadecimal digits, colons or dots. -/
def isIPv6 (s : String) : Bool :=
  s.contains ':' && s.toList.all (fun c => isHexChar c || c == ':' || c == '.')

/-- `getInterfaceName` from `src/interface-name.ts`. -/
def getInterfaceName (parentInterface : String) (vlanId : Nat) : String :=
  if vlanId ≠ 1 then parentInterface ++ "." ++ toString vlanId
  else parentInterface

/-- `getInterfaceName` applied to raw storage values that may be
`undefined`, as done by the cross-reference lookups in
`regenerateInterfaces` (JS interpolates `undefined` into the string). -/
def rawInterfaceName (parentInterface : Option String) (vlanId : Option Nat) : String :=
  if vlanId ≠ some 1 then jsStr parentInterface ++ "." ++ jsNatStr vlanId
  else jsStr parentInterface

/-- Netplan route entry (shape from `src/netplan.ts` via the emitted
document; spec section 6). -/
structure Route where
  «to» : Option String := none
  via : Option String := none
  «from» : Option String := none
  table : Option Nat := none
  scope : Option String := none
  «type» : Option String := none
deriving Repr, DecidableEq

/-- Netplan routing-policy entry. -/
structure RoutingPolicy where
  «from» : Option String := none
  «to» : Option String := none
  table : Option Nat := none
  priority : Option Nat := none
deriving Repr, DecidableEq

/-- The fixed `dhcp4-overrides`/`dhcp6-overrides` block. -/
structure DhcpOverrides where
  useRoutes : Bool
  useDomains : Bool
deriving Repr, DecidableEq

/-- A netplan interface stanza (`EthernetInterface`/`VlanInterface`);
absent fields are `none`. -/
structure IfaceStanza where
  link : Option String := none
  id : Option Nat := none
  addresses : Option (List String) := none
  nameservers : Option (List String) := none
  optional : Option Bool := none
  dhcp4 : Option Bool := none
  dhcp6 : Option Bool := none
  acceptRa : Option Bool := none
  routes : Option (List Route) := none
  routingPolicy : Option (List RoutingPolicy) := none
  dhcp4Overrides : Option DhcpOverrides := none
  dhcp6Overrides : Option DhcpOverrides := none
deriving Repr, DecidableEq

/-- Settings of one port forward child device (`src/port-forward.ts`). -/
structure PortForwardSettings where
  protocol : Option String := none
  srcPort : Option String := none
  dstIp : Option String := none
  dstPort : Option String := none
deriving Repr, DecidableEq

/-- One logical network: the resolved storage settings of a `Vlan`
device (`src/vlan.ts`) together with its device id and its port
forward children. -/
structure Vlan where
  id : String
  vlanId : Option Nat := none
  parentInterface : Option String := none
  addresses : List String := []
  addressMode : String := "Manual"
  dnsServers : List String := []
  internet : Option String := none
  gateway4 : Option String := none
  gateway6 : Option String := none
  gatewayMode : Option String := none
  dhcp4 : Bool := true
  dhcp6 : Bool := true
  acceptRa : Bool := true
  dhcpServer : Option String := none
  portForwards : List PortForwardSettings := []
deriving Repr, DecidableEq

/-- Routing table allocator state: the `tableMaps` map (as an
association list in JS `Map` insertion order) and the `tablesStart`
counter, seeded at 100. -/
structure AllocState where
  tableMaps : List (String × Nat)
  tablesStart : Nat
deriving Repr, DecidableEq

def AllocState.init : AllocState := ⟨[], 100⟩

/-- `tableMaps.get(name)`. -/
def lookupTable (m : List (String × Nat)) (k : String) : Option Nat :=
  (m.find? (fun p => p.1 == k)).map (·.2)

/-- `tableMaps.set(name, v)`: JS `Map.set` replaces the value of an
existing key in place, otherwise appends in insertion order. -/
def setTable (m : List (String × Nat)) (k : String) (v : Nat) : List (String × Nat) :=
  if (m.find? (fun p => p.1 == k)).isSome then
    m.map (fun p => if p.1 == k then (k, v) else p)
  else m ++ [(k, v)]

/-- `ensureTable` from `Networks.regenerateInterfaces`:
`let table = tableMaps.get(name); if (!table) { table = tablesStart++;
tableMaps.set(name, table); } return table`. The JS falsy check also
reassigns a stored `0`. -/
def ensureTable (s : AllocState) (interfaceName : String) : AllocState × Nat :=
  match lookupTable s.tableMaps interfaceName with
  | some t =>
    if t == 0 then
      (⟨setTable s.tableMaps interfaceName s.tablesStart, s.tablesStart + 1⟩, s.tablesStart)
    else (s, t)
  | none =>
    (⟨setTable s.tableMaps interfaceName s.tablesStart, s.tablesStart + 1⟩, s.tablesStart)

/-- Run the allocator over a sequence of `ensureTable` requests. -/
def allocRun (names : List String) : AllocState :=
  names.foldl (fun s n => (ensureTable s n).1) AllocState.init

/-- JS `Set.add` on an insertion-ordered duplicate-free list. -/
def addUnique (l : List String) (x : String) : List String :=
  if l.contains x then l else l ++ [x]

/-- First-occurrence order of a request list (`Set` semantics). -/
def firstOccs (l : List String) : List String :=
  l.foldl addUnique []

/-- The table map in which the names of `d` hold successive ids from
`k` on. -/
def canonicalMap (d : List String) (k : Nat) : List (String × Nat) :=
  match d with
  | [] => []
  | n :: t => (n, k) :: canonicalMap t (k + 1)

/-- The allocator state reached after first-occurrence list `d` has
been requested: the i-th distinct name holds table `100 + i` and the
counter stands at `100 + d.length`. -/
def canonicalAlloc (d : List String) : AllocState :=
  ⟨canonicalMap d 100, 100 + d.length⟩

/-! ### Firewall rule emitter (`src/nftables.ts`)

The rule fragments are the exact template-literal strings of the
source; literal braces are written with `\x7b`/`\x7d` escapes. -/

/-- The masquerade fragment of `addMasquerade`. -/
def masqueradeRule (ip wanInterface : String) : String :=
  "\ntable " ++ ip ++ " nat \x7b\n    chain postrouting_scrypted \x7b\n        oif \"" ++
  wanInterface ++ "\" masquerade\n    \x7d\n\x7d\n"

/-- The forward-accept fragment of `addWanGateway`. -/
def wanGatewayForwardRule (ip wanInterface lanInterface : String) : String :=
  "\ntable " ++ ip ++ " filter \x7b\n    chain forward_scrypted \x7b\n        iif \"" ++
  lanInterface ++ "\" oif \"" ++ wanInterface ++ "\" accept\n        iif \"" ++
  wanInterface ++ "\" oif \"" ++ lanInterface ++
  "\" ct state established,related accept\n    \x7d\n\x7d\n"

/-- The flush directives added once by `flushChains`. -/
def flushRules : String :=
  "\nflush chain ip nat postrouting_scrypted\nflush chain ip6 nat postrouting_scrypted\n" ++
  "flush chain ip filter forward_scrypted\nflush chain ip6 filter forward_scrypted\n" ++
  "flush chain ip nat prerouting_scrypted\nflush chain ip6 nat prerouting_scrypted\n"

/-- The WAN-side forward-accept fragment of `addPortForward`. -/
def pfForwardRule (ip wanInterface dstIp proto dstPort : String) : String :=
  "\ntable " ++ ip ++ " filter \x7b\n    chain forward_scrypted \x7b\n        iif \"" ++
  wanInterface ++ "\" ip daddr " ++ dstIp ++ " " ++ proto ++ " dport " ++ dstPort ++
  " accept\n    \x7d\n\x7d\n"

/-- The WAN-side DNAT fragment of `addPortForward`. -/
def pfPreroutingRule (ip wanInterface proto srcPort dstIp dstPort : String) : String :=
  "\ntable " ++ ip ++ " nat \x7b\n    chain prerouting_scrypted \x7b\n        iif \"" ++
  wanInterface ++ "\" " ++ proto ++ " dport " ++ srcPort ++ " dnat to " ++ dstIp ++ ":" ++
  dstPort ++ "\n    \x7d\n\x7d\n"

/-- The hairpin forward-accept fragment of `addPortForward`
(source indentation preserved). -/
def pfLanForwardRule (ip lanInterface dstIp proto dstPort : String) : String :=
  "\n            table " ++ ip ++
  " filter \x7b\n                chain forward_scrypted \x7b\n                    iif \"" ++
  lanInterface ++ "\" ip daddr " ++ dstIp ++ " " ++ proto ++ " dport " ++ dstPort ++
  " accept\n                    iif \"" ++ lanInterface ++ "\" oif \"" ++ lanInterface ++
  "\" ct state established,related accept\n                \x7d\n            \x7d\n            "

/-- The hairpin DNAT fragment of `addPortForward`. -/
def pfLanPreroutingRule (ip lanInterface proto srcPort dstIp dstPort : String) : String :=
  "\ntable " ++ ip ++ " nat \x7b\n    chain prerouting_scrypted \x7b\n        iif \"" ++
  lanInterface ++ "\" fib daddr type local " ++ proto ++ " dport " ++ srcPort ++
  " dnat to " ++ dstIp ++ ":" ++ dstPort ++ "\n    \x7d\n\x7d\n"

/-- `addMasquerade` from `src/nftables.ts`. -/
def addMasquerade (nftables : List String) (ip wanInterface : String) : List String :=
  addUnique nftables (masqueradeRule ip wanInterface)

/-- `addWanGateway` from `src/nftables.ts`. -/
def addWanGateway (nftables : List String) (ip wanInterface lanInterface : String) : List String :=
  addUnique (addMasquerade nftables ip wanInterface)
    (wanGatewayForwardRule ip wanInterface lanInterface)

/-- `flushChains` from `src/nftables.ts`. -/
def flushChains (nftables : List String) : List String :=
  addUnique nftables flushRules

/-- Protocol expansion in `addPortForward`:
`if (protocol === 'tcp + udp') actualProto = 'meta l4proto { tcp, udp } th'`. -/
def actualProto (protocol : String) : String :=
  if protocol == "tcp + udp" then "meta l4proto \x7b tcp, udp \x7d th" else protocol

/-- `addPortForward` from `src/nftables.ts`: masquerade + forward +
DNAT on the WAN side, then for each LAN interface a hairpin
masquerade/forward/DNAT triple. -/
def addPortForward (nftables : List String) (ip wanInterface : String)
    (lanInterfaces : List String) (protocol srcPort dstIp dstPort : String) : List String :=
  let ap := actualProto protocol
  let nft1 := addMasquerade nftables ip wanInterface
  let nft2 := addUnique nft1 (pfForwardRule ip wanInterface dstIp ap dstPort)
  let nft3 := addUnique nft2 (pfPreroutingRule ip wanInterface ap srcPort dstIp dstPort)
  lanInterfaces.foldl (fun acc lanInterface =>
    let a1 := addMasquerade acc ip lanInterface
    let a2 := addUnique a1 (pfLanForwardRule ip lanInterface dstIp ap dstPort)
    addUnique a2 (pfLanPreroutingRule ip lanInterface ap srcPort dstIp dstPort)) nft3

/-! ### Network plan compiler (`Networks.regenerateInterfaces`) -/

def ipv4Default : String := "0.0.0.0/0"
def ipv6Default : String := "::/0"

/-- One `dhclientPairs` entry. -/
structure DhPair where
  wanInterface : String
  fromIp : String
  table : Nat
deriving Repr, DecidableEq

/-- `routes.splice(routes.indexOf(r), 1)`: remove the first occurrence
of `r`. (The call sites only splice a route known to be present, so
the JS `indexOf = -1` corner never arises there.) -/
def spliceOutFirst (l : List Route) (r : Route) : List Route :=
  match l with
  | [] => []
  | x :: xs => if x = r then xs else x :: spliceOutFirst xs r

/-- The initial blackhole default route of one network's route set. -/
def blackholeRoute (table : Nat) : Route :=
  { «to» := some ipv4Default, table := some table, «type» := some "blackhole" }

/-- The link-scope route pinned to the network's private table for one
configured address. -/
def linkRoute (table : Nat) (address : String) : Route :=
  { «to» := some address, scope := some "link", table := some table }

/-- State threaded through one network's processing that is not part
of the netplan document. -/
structure BuildState where
  alloc : AllocState
  nftables : List String
  dhclientPairs : List DhPair
  warnings : List String
deriving Repr, DecidableEq

/-- The interface stanza emitted for one network, with its placement
data. -/
structure Emitted where
  parentInterface : String
  vlanId : Nat
  interfaceName : String
  stanza : IfaceStanza
deriving Repr, DecidableEq

/-- Result of processing one network: the threaded state, the emitted
stanza (`none` when the network is skipped) and the network record
after the pass (its `addresses` array is spliced empty in Auto mode). -/
structure BuildResult where
  state : BuildState
  emitted : Option Emitted
  updatedVlan : Vlan
deriving Repr, DecidableEq

/-- Accumulator of the `lanInterfaces` collection loop inside the
port-forward section. -/
structure LanAcc where
  lans : List String
  policy : List RoutingPolicy
  alloc : AllocState
deriving Repr, DecidableEq

/-- Accumulator of the port-forward loop. -/
structure PfAcc where
  policy : List RoutingPolicy
  alloc : AllocState
  nftables : List String
  warnings : List String
deriving Repr, DecidableEq

/-- The inner loop of the port-forward section that collects
`lanInterfaces` and pushes hairpin routing-policy rules, calling
`ensureTable` for each Manual LAN. Reading the original `vlans` list
here is faithful: the only in-place mutation during a pass empties the
`addresses` of Auto-mode networks, and this loop reads addresses only
from Manual-mode networks. -/
def lanHairpinStep (interfaceName : String) (acc : LanAcc) (v : Vlan) : LanAcc :=
  if v.gatewayMode == some "Local Interface" && v.internet == some interfaceName then
    let vlanInterfaceName := rawInterfaceName v.parentInterface v.vlanId
    let lans := addUnique acc.lans vlanInterfaceName
    if v.addressMode == "Manual" then
      let (al, vlanTable) := ensureTable acc.alloc vlanInterfaceName
      ⟨lans,
       acc.policy ++ v.addresses.map (fun a =>
         { «from» := some a, table := some vlanTable, priority := some 1 : RoutingPolicy }),
       al⟩
    else ⟨lans, acc.policy, acc.alloc⟩
  else acc

/-- One iteration of the port-forward loop of `regenerateInterfaces`.

Note: the call site passes an extra `ipv4Addresses` argument that the
revision of `addPortForward` in `src/nftables.ts` does not declare;
the embedding matches the arguments to `addPortForward`'s parameters
by name and drops the extra one. -/
def pfStep (vlans : List Vlan) (interfaceName : String)
    (acc : PfAcc) (pf : PortForwardSettings) : PfAcc :=
  if jsFalsyStr pf.srcPort || jsFalsyStr pf.dstIp || jsFalsyStr pf.dstPort ||
      jsFalsyStr pf.protocol then
    { acc with warnings := acc.warnings ++
        ["Source Port, Destination IP, and Destination Port are required for port forward."] }
  else
    let inner := vlans.foldl (lanHairpinStep interfaceName) ⟨[], acc.policy, acc.alloc⟩
    let nft2 := addPortForward acc.nftables "ip" interfaceName inner.lans
      (jsStr pf.protocol) (jsStr pf.srcPort) (jsStr pf.dstIp) (jsStr pf.dstPort)
    ⟨inner.policy, inner.alloc, nft2, acc.warnings⟩

/-- Result of gateway resolution for one network. -/
structure ResolveResult where
  routes : List Route
  policy : List RoutingPolicy
  alloc : AllocState
  nftables : List String
  dhclientPairs : List DhPair
  warnings : List String
deriving Repr, DecidableEq

/-- The `gatewayMode !== 'Disabled'` block of `regenerateInterfaces`
(internet-gateway cross reference). -/
def resolveInternet (vlans : List Vlan) (vlan : Vlan)
    (interfaceName : String) (table : Nat) (defaultRoute : Route) (routes0 : List Route)
    (gateway4 gateway6 : Option String) (alloc : AllocState) (nft : List String)
    (dh : List DhPair) (warns : List String) : ResolveResult :=
  if vlan.gatewayMode != some "Disabled" then
    if jsTruthyStr gateway4 || jsTruthyStr gateway6 then
      -- fall through to use the manual gateway instead
      ⟨routes0, [], alloc, nft, dh, warns⟩
    else
      -- `find(v => getInterfaceName(...) === internet)`: an undefined
      -- `internet` matches no interface name, so both that case and a
      -- failed lookup take the warning path.
      match vlan.internet with
      | none =>
        ⟨routes0, [], alloc, nft, dh,
         warns ++ ["Internet interface " ++ jsStr vlan.internet ++
           " not found or is not managed directly."]⟩
      | some inet =>
      match vlans.find? (fun v => rawInterfaceName v.parentInterface v.vlanId == inet) with
      | none =>
        ⟨routes0, [], alloc, nft, dh,
         warns ++ ["Internet interface " ++ jsStr vlan.internet ++
           " not found or is not managed directly."]⟩
      | some internetVlan =>
        let tRes := ensureTable alloc inet
        let allocB := tRes.1
        let internetTable := tRes.2
        let routesB := spliceOutFirst routes0 defaultRoute
        let polB := vlan.addresses.map (fun a =>
          { «from» := some (if vlan.dhcpServer == some "Enabled" then a else bareIp a),
            table := some internetTable, priority := some 2 : RoutingPolicy })
        let wanInterface := rawInterfaceName internetVlan.parentInterface internetVlan.vlanId
        let nftB := addWanGateway nft "ip" wanInterface interfaceName
        let nftC := if vlan.vlanId != internetVlan.vlanId then
            addWanGateway nftB "ip6" wanInterface interfaceName
          else nftB
        if internetVlan.addressMode != "Auto" then
          let routesC := routesB ++ vlan.addresses.filterMap (fun a =>
            let ip := bareIp a
            if isIPv4 ip && jsTruthyStr internetVlan.gateway4 then
              some { «from» := some ip, «to» := some ipv4Default,
                     via := internetVlan.gateway4, table := some table : Route }
            else if isIPv6 ip && jsTruthyStr internetVlan.gateway6 then
              some { «from» := some ip, «to» := some ipv6Default,
                     via := internetVlan.gateway6, table := some table : Route }
            else none)
          ⟨routesC, polB, allocB, nftC, dh, warns⟩
        else
          ⟨routesB, polB, allocB, nftC,
           dh ++ vlan.addresses.map (fun a =>
             { wanInterface := wanInterface, fromIp := bareIp a,
               table := internetTable : DhPair }),
           warns⟩
  else ⟨routes0, [], alloc, nft, dh, warns⟩

/-- The routes pushed by the `gateway4 || gateway6` block for one
address: the per-family default route via the manual gateway in the
private table, plus the unscoped default route when this network is
the designated default-internet network. -/
def manualGatewayAdds (defaultInternetId : Option String) (vlan : Vlan) (table : Nat)
    (gateway4 gateway6 : Option String) (a : String) : List Route :=
  let ip := bareIp a
  if isIPv4 ip && jsTruthyStr gateway4 then
    [{ «from» := some ip, «to» := some ipv4Default, via := gateway4,
       table := some table : Route }] ++
    (if defaultInternetId == some vlan.id then
      [{ «to» := some ipv4Default, via := gateway4 : Route }] else [])
  else if isIPv6 ip && jsTruthyStr gateway6 then
    [{ «from» := some ip, «to» := some ipv6Default, via := gateway6,
       table := some table : Route }] ++
    (if defaultInternetId == some vlan.id then
      [{ «to» := some ipv6Default, via := gateway6 : Route }] else [])
  else []

/-- The route list after the `gateway4 || gateway6` block of
`regenerateInterfaces` (manual gateway promotion, with the extra
unscoped default route on the designated default-internet network). -/
def manualGatewayRoutes (defaultInternetId : Option String) (vlan : Vlan) (table : Nat)
    (defaultRoute : Route) (gateway4 gateway6 : Option String) (routesA : List Route) :
    List Route :=
  if jsTruthyStr gateway4 || jsTruthyStr gateway6 then
    spliceOutFirst routesA defaultRoute ++
      vlan.addresses.flatMap (manualGatewayAdds defaultInternetId vlan table gateway4 gateway6)
  else routesA

/-- Gateway resolution for a non-DHCP-client network: the priority-1
policy rules, the `gatewayMode !== 'Disabled'` block and the
`gateway4 || gateway6` block of `regenerateInterfaces`. -/
def resolveGateways (vlans : List Vlan) (defaultInternetId : Option String) (vlan : Vlan)
    (interfaceName : String) (table : Nat) (defaultRoute : Route) (routes0 : List Route)
    (gateway4 gateway6 : Option String) (alloc : AllocState) (nft : List String)
    (dh : List DhPair) (warns : List String) : ResolveResult :=
  let pol1 : List RoutingPolicy := vlan.addresses.flatMap (fun a =>
    let ip := bareIp a
    [{ «from» := some ip, table := some table, priority := some 1 },
     { «to» := some ip, table := some table, priority := some 1 }])
  let afterInternet := resolveInternet vlans vlan interfaceName table defaultRoute routes0
    gateway4 gateway6 alloc nft dh warns
  { afterInternet with
    routes := manualGatewayRoutes defaultInternetId vlan table defaultRoute
      gateway4 gateway6 afterInternet.routes,
    policy := pol1 ++ afterInternet.policy }

/-- Processing of one `Vlan` inside the per-network loop of
`regenerateInterfaces`: validation guards, per-network routes and
policies, gateway resolution, the Auto-mode `addresses.splice`, the
interface stanza and the port-forward loop. -/
def buildVlanArtifacts (vlans : List Vlan) (defaultInternetId : Option String)
    (st : BuildState) (vlan : Vlan) : BuildResult :=
  if jsFalsyNat vlan.vlanId then
    ⟨{ st with warnings := st.warnings ++ ["VLAN ID is required."] }, none, vlan⟩
  else if jsFalsyStr vlan.parentInterface then
    ⟨{ st with warnings := st.warnings ++ ["Parent Interface is required."] }, none, vlan⟩
  else
    let vlanId := vlan.vlanId.getD 1
    let parentInterface := jsStr vlan.parentInterface
    let gateway4 := if vlan.gatewayMode == some "Manual" then vlan.gateway4 else none
    let gateway6 := if vlan.gatewayMode == some "Manual" then vlan.gateway6 else none
    let dhcpClient := vlan.addressMode == "Auto"
    let warns1 := st.warnings ++
      (if vlan.addresses.isEmpty && !dhcpClient then ["Address is unconfigured."] else [])
    let dhcp4 := dhcpClient && vlan.dhcp4
    let dhcp6 := dhcpClient && vlan.dhcp6
    let acceptRa := dhcpClient && vlan.acceptRa
    let nameservers := if vlan.dnsServers.isEmpty then none else some vlan.dnsServers
    let interfaceName := getInterfaceName parentInterface vlanId
    let tRes := ensureTable st.alloc interfaceName
    let alloc1 := tRes.1
    let table := tRes.2
    let defaultRoute : Route := blackholeRoute table
    let routes0 : List Route := defaultRoute :: vlan.addresses.map (linkRoute table)
    let addresses1 := if dhcpClient then ([] : List String) else vlan.addresses
    let resolved : ResolveResult :=
      if dhcpClient then
        ⟨routes0, [], alloc1, st.nftables, st.dhclientPairs, warns1⟩
      else resolveGateways vlans defaultInternetId vlan interfaceName table defaultRoute
        routes0 gateway4 gateway6 alloc1 st.nftables st.dhclientPairs warns1
    let pfRes := vlan.portForwards.foldl (pfStep vlans interfaceName)
      ⟨resolved.policy, resolved.alloc, resolved.nftables, resolved.warnings⟩
    let stanza : IfaceStanza :=
      { link := if vlanId == 1 then none else some parentInterface,
        id := if vlanId == 1 then none else some vlanId,
        addresses := if addresses1.isEmpty then none else some addresses1,
        nameservers := nameservers,
        optional := some true,
        dhcp4 := some dhcp4, dhcp6 := some dhcp6, acceptRa := some acceptRa,
        routes := some resolved.routes, routingPolicy := some pfRes.policy,
        dhcp4Overrides := some ⟨false, false⟩, dhcp6Overrides := some ⟨false, false⟩ }
    ⟨⟨pfRes.alloc, pfRes.nftables, resolved.dhclientPairs, pfRes.warnings⟩,
     some ⟨parentInterface, vlanId, interfaceName, stanza⟩,
     { vlan with addresses := addresses1 }⟩

/-- The interface stanza emitted for a network, when any. -/
def emittedStanza (b : BuildResult) : Option IfaceStanza :=
  b.emitted.map (fun e => e.stanza)

/-- The route set compiled for a network, when a stanza was emitted. -/
def emittedRoutes (b : BuildResult) : Option (List Route) :=
  b.emitted.bind (fun e => e.stanza.routes)

/-- Netplan document lookup (`netplan.network.ethernets[k]`). -/
def lookupStanza (m : List (String × IfaceStanza)) (k : String) : Option IfaceStanza :=
  (m.find? (fun p => p.1 == k)).map (·.2)

/-- Netplan document assignment: JS object property set keeps the
original insertion position of an existing key. -/
def setStanza (m : List (String × IfaceStanza)) (k : String) (v : IfaceStanza) :
    List (String × IfaceStanza) :=
  if (m.find? (fun p => p.1 == k)).isSome then
    m.map (fun p => if p.1 == k then (k, v) else p)
  else m ++ [(k, v)]

/-- Full per-pass compiler state. -/
structure CompState where
  build : BuildState
  ethernets : List (String × IfaceStanza)
  vlansDoc : List (String × IfaceStanza)
  needParentInterfaces : List String
  updatedVlans : List Vlan
deriving Repr, DecidableEq

/-- Placement of one network's build result into the pass state: the
stanza goes to `ethernets` for VLAN id 1, otherwise to `vlans` plus a
`needParentInterfaces` entry. -/
def placeVlan (st : CompState) (b : BuildResult) : CompState :=
  match b with
  | ⟨bstate, none, uv⟩ =>
    { st with build := bstate, updatedVlans := st.updatedVlans ++ [uv] }
  | ⟨bstate, some e, uv⟩ =>
    if e.vlanId == 1 then
      { st with
        build := bstate,
        ethernets := setStanza st.ethernets e.parentInterface e.stanza,
        updatedVlans := st.updatedVlans ++ [uv] }
    else
      { st with
        build := bstate,
        vlansDoc := setStanza st.vlansDoc e.interfaceName e.stanza,
        needParentInterfaces := addUnique st.needParentInterfaces e.parentInterface,
        updatedVlans := st.updatedVlans ++ [uv] }

/-- One iteration of the per-network loop: build the network's
artifacts and place its stanza in the netplan document. -/
def processVlan (vlans : List Vlan) (defaultInternetId : Option String)
    (st : CompState) (vlan : Vlan) : CompState :=
  placeVlan st (buildVlanArtifacts vlans defaultInternetId st.build vlan)

/-- One step of the parent-interface completion pass: a parent with an
existing ethernet stanza is skipped, otherwise it receives the minimal
`{ optional: true }` stanza. -/
def completeParent (e : List (String × IfaceStanza)) (p : String) :
    List (String × IfaceStanza) :=
  if (lookupStanza e p).isSome then e
  else setStanza e p { optional := some true }

/-- The parent-interface completion pass: every parent referenced by a
sub-VLAN that has no ethernet stanza yet receives `{ optional: true }`;
existing stanzas are left untouched. -/
def completionPass (eth : List (String × IfaceStanza)) (needParents : List String) :
    List (String × IfaceStanza) :=
  needParents.foldl completeParent eth

/-- The compiled plan of one pass. -/
structure RegenResult where
  ethernets : List (String × IfaceStanza)
  vlansDoc : List (String × IfaceStanza)
  nftables : List String
  dhclientPairs : List DhPair
  warnings : List String
  vlansAfter : List Vlan
  tableMaps : List (String × Nat)
deriving Repr, DecidableEq

/-- `Networks.regenerateInterfaces` (compilation stages only: the
artifact writes and external commands at the end of the method are
boundary effects outside the compiled plan). -/
def regenerateInterfaces (vlans : List Vlan) (defaultInternetId : Option String) :
    RegenResult :=
  let st0 : CompState := ⟨⟨AllocState.init, flushChains [], [], []⟩, [], [], [], []⟩
  let st := vlans.foldl (processVlan vlans defaultInternetId) st0
  ⟨completionPass st.ethernets st.needParentInterfaces, st.vlansDoc,
   st.build.nftables, st.build.dhclientPairs, st.build.warnings,
   st.updatedVlans, st.build.alloc.tableMaps⟩

/-! ## Allocator canonicalization -/

theorem lookupTable_canonicalMap (d : List String) (k : Nat) (n : String) :
    lookupTable (canonicalMap d k) n =
      if n ∈ d then some (k + List.indexOf n d) else none := by
  induction d generalizing k with
  | nil => simp [canonicalMap, lookupTable]
  | cons a t ih =>
    by_cases h : a = n
    · subst h
      simp [canonicalMap, lookupTable, List.find?_cons_of_pos, List.indexOf_cons_self]
    · simp only [canonicalMap, lookupTable]
      have hb : (((a, k) : String × Nat).1 == n) = false := by simp [h]
      rw [List.find?_cons, hb]
      have ih' := ih (k + 1)
      simp only [lookupTable] at ih'
      show Option.map (fun x => x.2)
          (List.find? (fun p => p.1 == n) (canonicalMap t (k + 1))) = _
      rw [ih']
      by_cases hm : n ∈ t
      · have : List.indexOf n (a :: t) = (List.indexOf n t).succ :=
          List.indexOf_cons_ne _ h
        simp [hm, h, this]
        omega
      · have hna : ¬n = a := fun hh => h hh.symm
        simp [hm, hna]

theorem setTable_of_lookup_none (m : List (String × Nat)) (n : String) (v : Nat)
    (h : lookupTable m n = none) : setTable m n v = m ++ [(n, v)] := by
  have : (m.find? (fun p => p.1 == n)) = none := by
    cases hf : m.find? (fun p => p.1 == n) with
    | none => rfl
    | some p => simp [lookupTable, hf] at h
  simp [setTable, this]

theorem canonicalMap_append (d : List String) (n : String) (k : Nat) :
    canonicalMap (d ++ [n]) k = canonicalMap d k ++ [(n, k + d.length)] := by
  induction d generalizing k with
  | nil => simp [canonicalMap]
  | cons a t ih =>
    simp [canonicalMap, ih (k + 1)]
    omega

theorem ensureTable_canonicalAlloc (d : List String) (n : String) :
    ensureTable (canonicalAlloc d) n =
      if n ∈ d then (canonicalAlloc d, 100 + List.indexOf n d)
      else (canonicalAlloc (d ++ [n]), 100 + d.length) := by
  by_cases hm : n ∈ d
  · have hl : lookupTable (canonicalAlloc d).tableMaps n =
        some (100 + List.indexOf n d) := by
      simpa [canonicalAlloc, hm] using lookupTable_canonicalMap d 100 n
    have hz : ((100 + List.indexOf n d) == 0) = false := by
      rw [beq_eq_false_iff_ne]
      omega
    simp [ensureTable, hl, hz, hm]
  · have hl : lookupTable (canonicalAlloc d).tableMaps n = none := by
      simpa [canonicalAlloc, hm] using lookupTable_canonicalMap d 100 n
    have hset : setTable (canonicalAlloc d).tableMaps n (canonicalAlloc d).tablesStart =
        (canonicalAlloc d).tableMaps ++ [(n, (canonicalAlloc d).tablesStart)] :=
      setTable_of_lookup_none _ _ _ hl
    simp only [ensureTable, hl]
    rw [if_neg hm, hset]
    simp [canonicalAlloc, canonicalMap_append]
    omega

theorem foldl_ensureTable_canonical (l : List String) :
    ∀ d, l.foldl (fun s n => (ensureTable s n).1) (canonicalAlloc d) =
      canonicalAlloc (l.foldl addUnique d) := by
  induction l with
  | nil => intro d; rfl
  | cons a t ih =>
    intro d
    have hstep : (ensureTable (canonicalAlloc d) a).1 = canonicalAlloc (addUnique d a) := by
      rw [ensureTable_canonicalAlloc]
      by_cases hm : a ∈ d
      · simp [hm, addUnique]
      · simp [hm, addUnique]
    simp only [List.foldl]
    rw [hstep, ih]

theorem allocRun_canonical (l : List String) :
    allocRun l = canonicalAlloc (firstOccs l) := by
  have h0 : AllocState.init = canonicalAlloc [] := rfl
  rw [allocRun, firstOccs, h0, foldl_ensureTable_canonical]

/-- C3: given the same ordered collection of LogicalNetworks (same
insertion order) and the same referenced interface names, two runs of
the compilation pass assign identical interface-name-to-table-id
mappings; moreover the allocation is the canonical function of the
first-occurrence order of the requested names, so it depends only on
the order in which interface names are first requested. -/
theorem tableAllocationDeterminism :
    (∀ (vlans₁ vlans₂ : List Vlan) (dI : Option String), vlans₁ = vlans₂ →
      (regenerateInterfaces vlans₁ dI).tableMaps =
        (regenerateInterfaces vlans₂ dI).tableMaps)
    ∧ (∀ l : List String, allocRun l = canonicalAlloc (firstOccs l))
    ∧ (∀ l₁ l₂ : List String, firstOccs l₁ = firstOccs l₂ →
        allocRun l₁ = allocRun l₂) := by
  refine ⟨fun v₁ v₂ dI h => by rw [h], allocRun_canonical, fun l₁ l₂ h => ?_⟩
  rw [allocRun_canonical, allocRun_canonical, h]

/-- Witness for C3: two request sequences with the same
first-occurrence order yield the same allocation. -/
theorem tableAllocationDeterminism_witness :
    allocRun ["eth0", "eth0.10", "eth0"] = allocRun ["eth0", "eth0", "eth0.10"] :=
  tableAllocationDeterminism.2.2 _ _ rfl

/-- C8: within one pass, the first distinct name requested from
`ensureTable` gets id 100, each previously-unseen name gets the next
successive integer (`100 +` the number of distinct names seen so far),
an already-assigned name returns its existing id with the state
unchanged, and no call ever returns an id below 100 (in particular
never 0). -/
theorem ensureTableSpec (l : List String) (n : String) :
    100 ≤ (ensureTable (allocRun l) n).2
    ∧ (ensureTable (allocRun l) n).2 ≠ 0
    ∧ (n ∉ firstOccs l →
        ensureTable (allocRun l) n =
          (allocRun (l ++ [n]), 100 + (firstOccs l).length))
    ∧ (n ∈ firstOccs l →
        ensureTable (allocRun l) n =
          (allocRun l, 100 + List.indexOf n (firstOccs l)))
    ∧ (l = [] → (ensureTable (allocRun l) n).2 = 100) := by
  have hfo : firstOccs (l ++ [n]) = addUnique (firstOccs l) n := by
    simp [firstOccs, List.foldl_append]
  by_cases hm : n ∈ firstOccs l
  · have he : ensureTable (allocRun l) n =
        (allocRun l, 100 + List.indexOf n (firstOccs l)) := by
      conv in allocRun l => rw [allocRun_canonical]
      rw [ensureTable_canonicalAlloc, if_pos hm, ← allocRun_canonical]
    refine ⟨?_, ?_, fun hc => absurd hm hc, fun _ => he, ?_⟩
    · rw [he]; exact Nat.le_add_right 100 _
    · rw [he]; simp
    · intro hl
      subst hl
      simp [firstOccs] at hm
  · have hau : addUnique (firstOccs l) n = firstOccs l ++ [n] := by
      simp [addUnique, hm]
    have he : ensureTable (allocRun l) n =
        (allocRun (l ++ [n]), 100 + (firstOccs l).length) := by
      rw [allocRun_canonical l, ensureTable_canonicalAlloc, if_neg hm,
        allocRun_canonical (l ++ [n]), hfo, hau]
    refine ⟨?_, ?_, fun _ => he, fun hc => absurd hc hm, ?_⟩
    · rw [he]; exact Nat.le_add_right 100 _
    · rw [he]; simp
    · intro hl
      subst hl
      rw [he]
      simp [firstOccs]

/-- Witness for C8: a fresh name after one request gets id 101; the
first name again returns its id 100 unchanged. -/
theorem ensureTableSpec_witness :
    ensureTable (allocRun ["eth0"]) "eth0.10" =
      (allocRun (["eth0"] ++ ["eth0.10"]), 100 + (firstOccs ["eth0"]).length)
    ∧ ensureTable (allocRun ["eth0"]) "eth0" =
      (allocRun ["eth0"], 100 + List.indexOf "eth0" (firstOccs ["eth0"])) :=
  ⟨(ensureTableSpec ["eth0"] "eth0.10").2.2.1 (by decide),
   (ensureTableSpec ["eth0"] "eth0").2.2.2.1 (by decide)⟩

/-! ## Ordered-unique firewall collection -/

theorem addUnique_idem (l : List String) (x : String) :
    addUnique (addUnique l x) x = addUnique l x := by
  by_cases hm : x ∈ l
  · simp [addUnique, hm]
  · simp [addUnique, hm]

theorem addUnique_nodup (l : List String) (x : String) (h : l.Nodup) :
    (addUnique l x).Nodup := by
  by_cases hm : x ∈ l
  · simpa [addUnique, hm]
  · have : (l ++ [x]).Nodup := by
      rw [List.nodup_append]
      refine ⟨h, List.nodup_singleton x, ?_⟩
      intro a ha hax
      simp only [List.mem_singleton] at hax
      exact hm (hax ▸ ha)
    simpa [addUnique, hm]

theorem addUnique_count_one (l : List String) (x : String) (h : l.Nodup) :
    (addUnique l x).count x = 1 := by
  by_cases hm : x ∈ l
  · simp [addUnique, hm, List.count_eq_one_of_mem h hm]
  · simp [addUnique, hm, List.count_append, List.count_eq_zero_of_not_mem hm]

theorem addUnique_extend (l : List String) (x : String) :
    ∃ t, addUnique l x = l ++ t := by
  by_cases hm : x ∈ l
  · exact ⟨[], by simp [addUnique, hm]⟩
  · exact ⟨[x], by simp [addUnique, hm]⟩

theorem foldl_preserve {α β : Type} (P : α → Prop) (f : α → β → α)
    (hf : ∀ a b, P a → P (f a b)) :
    ∀ (l : List β) (a : α), P a → P (l.foldl f a) := by
  intro l
  induction l with
  | nil => exact fun a h => h
  | cons x xs ih => exact fun a h => ih _ (hf a x h)

theorem addMasquerade_nodup (nft : List String) (ip wan : String) (h : nft.Nodup) :
    (addMasquerade nft ip wan).Nodup :=
  addUnique_nodup _ _ h

theorem addWanGateway_nodup (nft : List String) (ip wan lan : String) (h : nft.Nodup) :
    (addWanGateway nft ip wan lan).Nodup :=
  addUnique_nodup _ _ (addMasquerade_nodup _ _ _ h)

theorem addPortForward_nodup (nft : List String) (ip wan : String) (lans : List String)
    (proto s d p : String) (h : nft.Nodup) :
    (addPortForward nft ip wan lans proto s d p).Nodup := by
  unfold addPortForward
  refine foldl_preserve List.Nodup _ ?_ lans _ ?_
  · intro a b ha
    exact addUnique_nodup _ _ (addUnique_nodup _ _ (addUnique_nodup _ _ ha))
  · exact addUnique_nodup _ _ (addUnique_nodup _ _ (addUnique_nodup _ _ h))

theorem pfStep_nodup (vlans : List Vlan) (iname : String) (acc : PfAcc)
    (pf : PortForwardSettings) (h : acc.nftables.Nodup) :
    ((pfStep vlans iname acc pf).nftables).Nodup := by
  unfold pfStep
  split
  · exact h
  · exact addPortForward_nodup _ _ _ _ _ _ _ _ h

theorem resolveInternet_nodup (vlans : List Vlan) (vlan : Vlan) (iname : String)
    (table : Nat) (dr : Route) (routes0 : List Route) (g4 g6 : Option String)
    (alloc : AllocState) (nft : List String) (dh : List DhPair) (warns : List String)
    (h : nft.Nodup) :
    ((resolveInternet vlans vlan iname table dr routes0 g4 g6 alloc nft dh warns).nftables).Nodup := by
  unfold resolveInternet
  repeat' split
  all_goals
    first
      | exact h
      | (apply addWanGateway_nodup; first
          | exact h
          | (apply addWanGateway_nodup; exact h))

theorem resolveGateways_nodup (vlans : List Vlan) (dI : Option String) (vlan : Vlan)
    (iname : String) (table : Nat) (dr : Route) (routes0 : List Route)
    (g4 g6 : Option String) (alloc : AllocState) (nft : List String) (dh : List DhPair)
    (warns : List String) (h : nft.Nodup) :
    ((resolveGateways vlans dI vlan iname table dr routes0 g4 g6 alloc nft dh warns).nftables).Nodup :=
  resolveInternet_nodup vlans vlan iname table dr routes0 g4 g6 alloc nft dh warns h

theorem buildVlanArtifacts_nodup (vlans : List Vlan) (dI : Option String)
    (st : BuildState) (vlan : Vlan) (h : st.nftables.Nodup) :
    ((buildVlanArtifacts vlans dI st vlan).state.nftables).Nodup := by
  unfold buildVlanArtifacts
  split
  · exact h
  · split
    · exact h
    · refine foldl_preserve (fun acc : PfAcc => acc.nftables.Nodup) _
        (fun a b ha => pfStep_nodup _ _ _ _ ha) _ _ ?_
      dsimp only
      split
      · exact h
      · apply resolveGateways_nodup
        exact h

theorem processVlan_nodup (vlans : List Vlan) (dI : Option String)
    (st : CompState) (vlan : Vlan) (h : st.build.nftables.Nodup) :
    ((processVlan vlans dI st vlan).build.nftables).Nodup := by
  have hb := buildVlanArtifacts_nodup vlans dI st.build vlan h
  unfold processVlan
  generalize buildVlanArtifacts vlans dI st.build vlan = b at hb ⊢
  cases b with
  | mk bstate em uv =>
    cases em with
    | none => exact hb
    | some e =>
      by_cases hv : (e.vlanId == 1) = true
      · simpa [placeVlan, hv] using hb
      · simpa [placeVlan, hv] using hb

theorem regenerateInterfaces_nftables_nodup (vlans : List Vlan) (dI : Option String) :
    ((regenerateInterfaces vlans dI).nftables).Nodup := by
  unfold regenerateInterfaces
  refine foldl_preserve (fun st : CompState => st.build.nftables.Nodup) _
    (fun a b ha => processVlan_nodup _ _ _ _ ha) vlans _ ?_
  simp [flushChains, addUnique]

/-- C6: the firewall rule output is an insertion-ordered,
duplicate-free collection: the compiled nftables fragment list has no
duplicates, re-adding an identical fragment leaves the collection
unchanged (hence exactly one entry), adding only ever appends at the
end (insertion order preserved), and two compiler runs over the same
input produce identical rule text. -/
theorem firewallRefreshIdempotent :
    (∀ (vlans : List Vlan) (dI : Option String),
      ((regenerateInterfaces vlans dI).nftables).Nodup)
    ∧ (∀ (l : List String) (x : String), addUnique (addUnique l x) x = addUnique l x)
    ∧ (∀ (l : List String) (x : String), l.Nodup → (addUnique l x).count x = 1)
    ∧ (∀ (l : List String) (x : String), ∃ t, addUnique l x = l ++ t)
    ∧ (∀ (vlans₁ vlans₂ : List Vlan) (dI : Option String), vlans₁ = vlans₂ →
        (regenerateInterfaces vlans₁ dI).nftables =
          (regenerateInterfaces vlans₂ dI).nftables) :=
  ⟨regenerateInterfaces_nftables_nodup, addUnique_idem, addUnique_count_one,
   addUnique_extend, fun v₁ v₂ dI h => by rw [h]⟩

/-- Witness for C6 at concrete inputs. -/
theorem firewallRefreshIdempotent_witness :
    (addUnique ["a"] "b").count "b" = 1
    ∧ (regenerateInterfaces [] none).nftables = (regenerateInterfaces [] none).nftables :=
  ⟨firewallRefreshIdempotent.2.2.1 ["a"] "b" (by decide),
   firewallRefreshIdempotent.2.2.2.2 [] [] none rfl⟩

/-- C7: a port forward with protocol tcp + udp emits a single
forward-accept rule and a single DNAT rule, each built with the
dual-protocol match expression, instead of two per-protocol rule
pairs: the WAN-side output is exactly masquerade plus one
forward/DNAT pair, and no single-protocol variant appears. -/
theorem portForwardDualProtocol :
    (∀ (nft : List String) (ip wan srcPort dstIp dstPort : String),
      addPortForward nft ip wan [] "tcp + udp" srcPort dstIp dstPort =
        addUnique (addUnique (addUnique nft (masqueradeRule ip wan))
          (pfForwardRule ip wan dstIp "meta l4proto \x7b tcp, udp \x7d th" dstPort))
          (pfPreroutingRule ip wan "meta l4proto \x7b tcp, udp \x7d th" srcPort dstIp dstPort))
    ∧ actualProto "tcp + udp" = "meta l4proto \x7b tcp, udp \x7d th"
    ∧ addPortForward [] "ip" "eth0" [] "tcp + udp" "80" "192.168.1.5" "8080" =
        [masqueradeRule "ip" "eth0",
         pfForwardRule "ip" "eth0" "192.168.1.5" "meta l4proto \x7b tcp, udp \x7d th" "8080",
         pfPreroutingRule "ip" "eth0" "meta l4proto \x7b tcp, udp \x7d th" "80" "192.168.1.5" "8080"]
    ∧ (addPortForward [] "ip" "eth0" [] "tcp + udp" "80" "192.168.1.5" "8080").length = 3
    ∧ pfForwardRule "ip" "eth0" "192.168.1.5" "tcp" "8080" ∉
        addPortForward [] "ip" "eth0" [] "tcp + udp" "80" "192.168.1.5" "8080"
    ∧ pfForwardRule "ip" "eth0" "192.168.1.5" "udp" "8080" ∉
        addPortForward [] "ip" "eth0" [] "tcp + udp" "80" "192.168.1.5" "8080" := by
  refine ⟨fun nft ip wan s d p => rfl, rfl, by decide, by decide, by decide, by decide⟩

/-! ## Per-network route sets -/

theorem spliceOutFirst_cons_self (r : Route) (l : List Route) :
    spliceOutFirst (r :: l) r = l := by
  simp [spliceOutFirst]

/-- A Manual-mode network with gatewayMode Disabled, one address. -/
def c1net : Vlan :=
  { id := "a", vlanId := some 10, parentInterface := some "eth0",
    addresses := ["192.168.10.1/24"], gatewayMode := some "Disabled" }

/-- C1 counterexample: for a Manual-mode network with
gatewayMode Disabled, no gateway and one configured address, the
compiled route set contains, besides the blackhole default, a
link-scope route that is also an entry of the network's own table —
so the blackhole is not the only entry for its table. -/
theorem blackholeFallback_counterexample :
    ((regenerateInterfaces [c1net] none).vlansDoc.map (fun p => (p.1, p.2.routes))) =
      [("eth0.10", some [blackholeRoute 100, linkRoute 100 "192.168.10.1/24"])]
    ∧ (linkRoute 100 "192.168.10.1/24").table = some 100
    ∧ linkRoute 100 "192.168.10.1/24" ≠ blackholeRoute 100 := by
  exact ⟨by decide, rfl, by decide⟩

/-- C1 (amended): for every Manual-mode network with gatewayMode
Disabled and no manual gateway configured that passes validation, the
compiled route set is exactly the blackhole default to 0.0.0.0/0 in
the network's private table followed by one link-scope route per
configured address, also pinned to that table; every entry of the set
sits in the network's own table and none has a gateway (`via`), so no
leakage route toward any gateway exists (the blackhole is the only
entry for its table apart from these link-scope address routes). -/
theorem blackholeFallback (vlans : List Vlan) (dI : Option String) (st : BuildState)
    (vlan : Vlan)
    (h1 : jsFalsyNat vlan.vlanId = false)
    (h2 : jsFalsyStr vlan.parentInterface = false)
    (hmode : vlan.addressMode = "Manual")
    (hgw : vlan.gatewayMode = some "Disabled")
    (hg4 : vlan.gateway4 = none) (hg6 : vlan.gateway6 = none) :
    ∃ t, emittedRoutes (buildVlanArtifacts vlans dI st vlan) =
        some (blackholeRoute t :: vlan.addresses.map (linkRoute t))
      ∧ ∀ r ∈ blackholeRoute t :: vlan.addresses.map (linkRoute t),
          r.table = some t ∧ r.via = none := by
  refine ⟨(ensureTable st.alloc (getInterfaceName (jsStr vlan.parentInterface)
    (vlan.vlanId.getD 1))).2, ?_, ?_⟩
  · have hb1 : ("Manual" == "Auto") = false := by decide
    have hb2 : ((some "Disabled" : Option String) == some "Manual") = false := by decide
    have hb3 : ((some "Disabled" : Option String) != some "Disabled") = false := by decide
    have h1' : ¬(vlan.vlanId = none ∨ vlan.vlanId = some 0) := by
      simpa [jsFalsyNat] using h1
    have h2' : ¬(vlan.parentInterface = none ∨ vlan.parentInterface = some "") := by
      simpa [jsFalsyStr] using h2
    simp only [emittedRoutes, buildVlanArtifacts, h1, h2, hmode, hgw, hb1, hb2, hb3,
      Bool.false_eq_true, if_false, resolveGateways, resolveInternet, manualGatewayRoutes,
      jsTruthyStr, jsFalsyStr, Option.bind]
    simp [h1', h2']
  · intro r hr
    rcases List.mem_cons.mp hr with h | h
    · subst h
      exact ⟨rfl, rfl⟩
    · obtain ⟨a, _, rfl⟩ := List.mem_map.mp h
      exact ⟨rfl, rfl⟩

/-- Witness for C1 at a concrete network. -/
theorem blackholeFallback_witness :
    ∃ t, emittedRoutes (buildVlanArtifacts [c1net] none ⟨AllocState.init, [], [], []⟩ c1net) =
        some (blackholeRoute t :: c1net.addresses.map (linkRoute t))
      ∧ ∀ r ∈ blackholeRoute t :: c1net.addresses.map (linkRoute t),
          r.table = some t ∧ r.via = none :=
  blackholeFallback [c1net] none ⟨AllocState.init, [], [], []⟩ c1net
    (by decide) (by decide) rfl rfl rfl rfl

/-- An Auto-addressMode network with one stored address. -/
def c10net : Vlan :=
  { id := "d", vlanId := some 20, parentInterface := some "eth1",
    addresses := ["192.168.20.1/24"], addressMode := "Auto" }

/-- C10: for every Auto-addressMode network that passes validation,
the compiled route set still contains the link-scope routes for the
previously stored addresses (emitted before the splice), the emitted
stanza's addresses field is undefined, and the network record after
the pass has an empty addresses array — a mutation observable in the
pass result, as shown on a concrete network. -/
theorem autoModeAddressSplice (vlans : List Vlan) (dI : Option String) (st : BuildState)
    (vlan : Vlan)
    (h1 : jsFalsyNat vlan.vlanId = false)
    (h2 : jsFalsyStr vlan.parentInterface = false)
    (hmode : vlan.addressMode = "Auto") :
    (∃ t, emittedRoutes (buildVlanArtifacts vlans dI st vlan) =
        some (blackholeRoute t :: vlan.addresses.map (linkRoute t)))
    ∧ (emittedStanza (buildVlanArtifacts vlans dI st vlan)).map (fun s => s.addresses) =
        some none
    ∧ (buildVlanArtifacts vlans dI st vlan).updatedVlan = { vlan with addresses := [] }
    ∧ (regenerateInterfaces [c10net] none).vlansAfter = [{ c10net with addresses := [] }] := by
  have hb1 : ("Auto" == "Auto") = true := by decide
  have h1' : ¬(vlan.vlanId = none ∨ vlan.vlanId = some 0) := by
    simpa [jsFalsyNat] using h1
  have h2' : ¬(vlan.parentInterface = none ∨ vlan.parentInterface = some "") := by
    simpa [jsFalsyStr] using h2
  refine ⟨⟨(ensureTable st.alloc (getInterfaceName (jsStr vlan.parentInterface)
    (vlan.vlanId.getD 1))).2, ?_⟩, ?_, ?_, by decide⟩
  · simp only [emittedRoutes, buildVlanArtifacts, h1, h2, hmode, hb1,
      Bool.false_eq_true, if_false, Option.bind]
    simp [h1', h2']
  · simp only [emittedStanza, buildVlanArtifacts, h1, h2, hmode, hb1,
      Bool.false_eq_true, if_false]
    simp [h1', h2']
  · simp only [buildVlanArtifacts, h1, h2, hmode, hb1, Bool.false_eq_true, if_false]
    simp [h1', h2']

/-- Witness for C10 at a concrete network. -/
theorem autoModeAddressSplice_witness :
    (∃ t, emittedRoutes (buildVlanArtifacts [c10net] none ⟨AllocState.init, [], [], []⟩ c10net) =
        some (blackholeRoute t :: c10net.addresses.map (linkRoute t)))
    ∧ (emittedStanza (buildVlanArtifacts [c10net] none ⟨AllocState.init, [], [], []⟩
        c10net)).map (fun s => s.addresses) = some none
    ∧ (buildVlanArtifacts [c10net] none ⟨AllocState.init, [], [], []⟩ c10net).updatedVlan =
        { c10net with addresses := [] }
    ∧ (regenerateInterfaces [c10net] none).vlansAfter = [{ c10net with addresses := [] }] :=
  autoModeAddressSplice [c10net] none ⟨AllocState.init, [], [], []⟩ c10net
    (by decide) (by decide) rfl

/-- A Manual-mode network with gatewayMode Manual and gateway4 set but
no IPv4 address configured. -/
def c2net : Vlan :=
  { id := "c", vlanId := some 2, parentInterface := some "eth0",
    addresses := [], gatewayMode := some "Manual", gateway4 := some "10.0.0.1" }

/-- C2 counterexample: a Manual-mode network with gateway4 set but no
IPv4 address produces an empty route set — the blackhole is removed,
but no explicit default route via gateway4 is added, contradicting
the claim for such networks. -/
theorem gatewayPromotion_counterexample :
    emittedRoutes (buildVlanArtifacts [c2net] none ⟨AllocState.init, [], [], []⟩ c2net) =
      some []
    ∧ ((regenerateInterfaces [c2net] none).vlansDoc.map (fun p => (p.1, p.2.routes))) =
      [("eth0.2", some [])] := by
  exact ⟨by decide, by decide⟩

theorem manualGatewayAdds_type_none (dI : Option String) (vlan : Vlan) (table : Nat)
    (g4 g6 : Option String) (a : String) :
    ∀ r ∈ manualGatewayAdds dI vlan table g4 g6 a, r.«type» = none := by
  intro r hr
  unfold manualGatewayAdds at hr
  by_cases h1 : (isIPv4 (bareIp a) && jsTruthyStr g4) = true
  · rw [if_pos h1] at hr
    by_cases h2 : (dI == some vlan.id) = true
    · rw [if_pos h2] at hr
      simp only [List.mem_append, List.mem_singleton] at hr
      rcases hr with rfl | rfl <;> rfl
    · rw [if_neg h2] at hr
      simp only [List.append_nil, List.mem_singleton] at hr
      subst hr
      rfl
  · rw [if_neg h1] at hr
    by_cases h3 : (isIPv6 (bareIp a) && jsTruthyStr g6) = true
    · rw [if_pos h3] at hr
      by_cases h2 : (dI == some vlan.id) = true
      · rw [if_pos h2] at hr
        simp only [List.mem_append, List.mem_singleton] at hr
        rcases hr with rfl | rfl <;> rfl
      · rw [if_neg h2] at hr
        simp only [List.append_nil, List.mem_singleton] at hr
        subst hr
        rfl
    · rw [if_neg h3] at hr
      simp at hr

theorem manualGatewayAdds_mem (dI : Option String) (vlan : Vlan) (table : Nat)
    (g4 g6 : Option String) (a : String)
    (hip : isIPv4 (bareIp a) = true) (hg : jsTruthyStr g4 = true) :
    ({ «from» := some (bareIp a), «to» := some ipv4Default, via := g4,
       table := some table : Route } ∈ manualGatewayAdds dI vlan table g4 g6 a)
    ∧ (dI = some vlan.id →
      ({ «to» := some ipv4Default, via := g4 : Route } ∈
        manualGatewayAdds dI vlan table g4 g6 a)) := by
  have hc : (isIPv4 (bareIp a) && jsTruthyStr g4) = true := by simp [hip, hg]
  unfold manualGatewayAdds
  constructor
  · simp only [hc, if_true]
    exact List.mem_append_left _ (by simp)
  · intro hdI
    simp only [hc, if_true]
    refine List.mem_append_right _ ?_
    simp [hdI]

/-- C2 (amended): for every Manual-mode network with gatewayMode
Manual and gateway4 set that passes validation, the compiled route set
contains no blackhole default; and for each configured IPv4 address it
contains an explicit default route to 0.0.0.0/0 via gateway4 in the
network's private table (source-pinned to that address), plus — when
the network is the designated default-internet network — an unscoped
default route via gateway4 with no table. (A network without any IPv4
address keeps no blackhole but also gains no IPv4 default route.) -/
theorem gatewayPromotion (vlans : List Vlan) (dI : Option String) (st : BuildState)
    (vlan : Vlan)
    (h1 : jsFalsyNat vlan.vlanId = false)
    (h2 : jsFalsyStr vlan.parentInterface = false)
    (hmode : vlan.addressMode = "Manual")
    (hgw : vlan.gatewayMode = some "Manual")
    (hg4 : jsTruthyStr vlan.gateway4 = true) :
    ∃ t, emittedRoutes (buildVlanArtifacts vlans dI st vlan) =
        some (vlan.addresses.map (linkRoute t) ++
          vlan.addresses.flatMap
            (manualGatewayAdds dI vlan t vlan.gateway4 vlan.gateway6))
      ∧ (∀ r ∈ vlan.addresses.map (linkRoute t) ++
            vlan.addresses.flatMap
              (manualGatewayAdds dI vlan t vlan.gateway4 vlan.gateway6),
          r.«type» ≠ some "blackhole")
      ∧ (∀ a ∈ vlan.addresses, isIPv4 (bareIp a) = true →
          ({ «from» := some (bareIp a), «to» := some ipv4Default, via := vlan.gateway4,
             table := some t : Route } ∈
            vlan.addresses.map (linkRoute t) ++
              vlan.addresses.flatMap
                (manualGatewayAdds dI vlan t vlan.gateway4 vlan.gateway6))
          ∧ (dI = some vlan.id →
            ({ «to» := some ipv4Default, via := vlan.gateway4 : Route } ∈
              vlan.addresses.map (linkRoute t) ++
                vlan.addresses.flatMap
                  (manualGatewayAdds dI vlan t vlan.gateway4 vlan.gateway6)))) := by
  refine ⟨(ensureTable st.alloc (getInterfaceName (jsStr vlan.parentInterface)
    (vlan.vlanId.getD 1))).2, ?_, ?_, ?_⟩
  · have hb1 : ("Manual" == "Auto") = false := by decide
    have hb2 : ((some "Manual" : Option String) == some "Manual") = true := by decide
    have hb3 : ((some "Manual" : Option String) != some "Disabled") = true := by decide
    simp only [emittedRoutes, buildVlanArtifacts, h1, h2, hmode, hgw, hb1, hb2, hb3, hg4,
      Bool.false_eq_true, if_false, if_true, resolveGateways, resolveInternet,
      manualGatewayRoutes, spliceOutFirst_cons_self, Option.bind, Bool.true_or, Bool.or_true]
  · intro r hr
    rcases List.mem_append.mp hr with h | h
    · obtain ⟨a, _, rfl⟩ := List.mem_map.mp h
      simp [linkRoute]
    · obtain ⟨a, _, hr2⟩ := List.mem_flatMap.mp h
      have ht := manualGatewayAdds_type_none dI vlan _ vlan.gateway4 vlan.gateway6 a r hr2
      simp [ht]
  · intro a ha hip
    have hm := manualGatewayAdds_mem dI vlan
      (ensureTable st.alloc (getInterfaceName (jsStr vlan.parentInterface)
        (vlan.vlanId.getD 1))).2 vlan.gateway4 vlan.gateway6 a hip hg4
    exact ⟨List.mem_append_right _ (List.mem_flatMap.mpr ⟨a, ha, hm.1⟩),
      fun hdI => List.mem_append_right _ (List.mem_flatMap.mpr ⟨a, ha, hm.2 hdI⟩)⟩

/-- A designated default-internet network with gateway4 and one IPv4
address. -/
def c2wnet : Vlan :=
  { id := "w", vlanId := some 3, parentInterface := some "eth0",
    addresses := ["10.0.0.2/24"], gatewayMode := some "Manual",
    gateway4 := some "10.0.0.1" }

/-- Witness for C2 at a concrete default-internet network. -/
theorem gatewayPromotion_witness :
    ∃ t, emittedRoutes (buildVlanArtifacts [c2wnet] (some "w")
        ⟨AllocState.init, [], [], []⟩ c2wnet) =
        some (c2wnet.addresses.map (linkRoute t) ++
          c2wnet.addresses.flatMap
            (manualGatewayAdds (some "w") c2wnet t c2wnet.gateway4 c2wnet.gateway6))
      ∧ (∀ r ∈ c2wnet.addresses.map (linkRoute t) ++
            c2wnet.addresses.flatMap
              (manualGatewayAdds (some "w") c2wnet t c2wnet.gateway4 c2wnet.gateway6),
          r.«type» ≠ some "blackhole")
      ∧ (∀ a ∈ c2wnet.addresses, isIPv4 (bareIp a) = true →
          ({ «from» := some (bareIp a), «to» := some ipv4Default, via := c2wnet.gateway4,
             table := some t : Route } ∈
            c2wnet.addresses.map (linkRoute t) ++
              c2wnet.addresses.flatMap
                (manualGatewayAdds (some "w") c2wnet t c2wnet.gateway4 c2wnet.gateway6))
          ∧ (some "w" = some c2wnet.id →
            ({ «to» := some ipv4Default, via := c2wnet.gateway4 : Route } ∈
              c2wnet.addresses.map (linkRoute t) ++
                c2wnet.addresses.flatMap
                  (manualGatewayAdds (some "w") c2wnet t c2wnet.gateway4 c2wnet.gateway6)))) :=
  gatewayPromotion [c2wnet] (some "w") ⟨AllocState.init, [], [], []⟩ c2wnet
    (by decide) (by decide) rfl rfl (by decide)

/-! ## Skip on incomplete configuration -/

/-- A network missing its VLAN ID. -/
def c5bad : Vlan :=
  { id := "x", vlanId := none, parentInterface := some "eth0",
    addresses := ["10.0.0.1/24"] }

/-- A valid sibling network. -/
def c5good : Vlan :=
  { id := "y", vlanId := some 30, parentInterface := some "eth0",
    addresses := ["192.168.30.1/24"], gatewayMode := some "Disabled" }

/-- A Manual-mode network with an empty address list. -/
def c5empty : Vlan :=
  { id := "z", vlanId := some 2, parentInterface := some "eth0", addresses := [],
    gatewayMode := some "Disabled" }

/-- C5 counterexample: a network in non-Auto address mode with an
empty address list is NOT skipped — the pass logs the warning but
still emits an interface stanza (with its blackhole route) for it. -/
theorem skipOnIncomplete_counterexample :
    ((regenerateInterfaces [c5empty] none).vlansDoc.map Prod.fst) = ["eth0.2"]
    ∧ ((regenerateInterfaces [c5empty] none).vlansDoc.map
        (fun p => p.2.routes)) = [some [blackholeRoute 100]]
    ∧ (regenerateInterfaces [c5empty] none).warnings = ["Address is unconfigured."] := by
  exact ⟨by decide, by decide, by decide⟩

/-- C5 (amended): a network missing its VLAN ID or its parent
interface is skipped — the pass state is unchanged except for the
logged warning and the untouched network record, so no stanza, no
routes and no firewall rules are emitted for it — and the fold
continues over the remaining networks from that state, so every other
valid network is still fully processed; a non-Auto network with an
empty address list is only warned about and is still emitted. The
concrete conjuncts show a missing-vlanId network alongside a valid
sibling: only the sibling's stanza is emitted and the pass completes
with the warning logged. -/
theorem skipOnIncomplete :
    (∀ (vlans : List Vlan) (dI : Option String) (st : BuildState) (vlan : Vlan),
      jsFalsyNat vlan.vlanId = true →
        buildVlanArtifacts vlans dI st vlan =
          ⟨{ st with warnings := st.warnings ++ ["VLAN ID is required."] }, none, vlan⟩)
    ∧ (∀ (vlans : List Vlan) (dI : Option String) (st : BuildState) (vlan : Vlan),
      jsFalsyNat vlan.vlanId = false → jsFalsyStr vlan.parentInterface = true →
        buildVlanArtifacts vlans dI st vlan =
          ⟨{ st with warnings := st.warnings ++ ["Parent Interface is required."] }, none, vlan⟩)
    ∧ (∀ (vlans ys : List Vlan) (dI : Option String) (st : CompState) (vlan : Vlan),
      jsFalsyNat vlan.vlanId = true →
        (vlan :: ys).foldl (processVlan vlans dI) st =
          ys.foldl (processVlan vlans dI)
            { st with
              build := { st.build with
                warnings := st.build.warnings ++ ["VLAN ID is required."] },
              updatedVlans := st.updatedVlans ++ [vlan] })
    ∧ ((regenerateInterfaces [c5bad, c5good] none).vlansDoc.map Prod.fst) = ["eth0.30"]
    ∧ (regenerateInterfaces [c5bad, c5good] none).ethernets =
        [("eth0", { optional := some true })]
    ∧ ((regenerateInterfaces [c5bad, c5good] none).vlansDoc.map
        (fun p => p.2.routes)) =
        [some [blackholeRoute 100, linkRoute 100 "192.168.30.1/24"]]
    ∧ (regenerateInterfaces [c5bad, c5good] none).warnings = ["VLAN ID is required."] := by
  have ha : ∀ (vlans : List Vlan) (dI : Option String) (st : BuildState) (vlan : Vlan),
      jsFalsyNat vlan.vlanId = true →
        buildVlanArtifacts vlans dI st vlan =
          ⟨{ st with warnings := st.warnings ++ ["VLAN ID is required."] }, none, vlan⟩ := by
    intro vlans dI st vlan h
    simp only [buildVlanArtifacts, h, if_true]
  refine ⟨ha, ?_, ?_, by decide, by decide, by decide, by decide⟩
  · intro vlans dI st vlan h hp
    simp only [buildVlanArtifacts, h, Bool.false_eq_true, if_false, hp, if_true]
  · intro vlans ys dI st vlan h
    simp only [List.foldl]
    rw [processVlan, ha vlans dI st.build vlan h]
    rfl

/-- Witness for C5 at concrete networks. -/
theorem skipOnIncomplete_witness :
    buildVlanArtifacts [c5bad] none ⟨AllocState.init, [], [], []⟩ c5bad =
      ⟨{ (⟨AllocState.init, [], [], []⟩ : BuildState) with
          warnings := [] ++ ["VLAN ID is required."] }, none, c5bad⟩
    ∧ ([c5bad].foldl (processVlan [c5bad, c5good] none)
        ⟨⟨AllocState.init, flushChains [], [], []⟩, [], [], [], []⟩ =
      [].foldl (processVlan [c5bad, c5good] none)
        { (⟨⟨AllocState.init, flushChains [], [], []⟩, [], [], [], []⟩ : CompState) with
          build := { (⟨AllocState.init, flushChains [], [], []⟩ : BuildState) with
            warnings := [] ++ ["VLAN ID is required."] },
          updatedVlans := [] ++ [c5bad] }) :=
  ⟨skipOnIncomplete.1 [c5bad] none ⟨AllocState.init, [], [], []⟩ c5bad (by decide),
   skipOnIncomplete.2.2.1 [c5bad, c5good] [] none
     ⟨⟨AllocState.init, flushChains [], [], []⟩, [], [], [], []⟩ c5bad (by decide)⟩

/-! ## Parent-interface completion pass -/

theorem lookupStanza_setStanza_of_none (e : List (String × IfaceStanza)) (q : String)
    (v : IfaceStanza) (hq : lookupStanza e q = none) (p : String) :
    lookupStanza (setStanza e q v) p = if p = q then some v else lookupStanza e p := by
  have hfind : (e.find? (fun pr => pr.1 == q)) = none := by
    cases hf : e.find? (fun pr => pr.1 == q) with
    | none => rfl
    | some x => simp [lookupStanza, hf] at hq
  simp only [setStanza, hfind, Option.isSome_none, Bool.false_eq_true, if_false]
  simp only [lookupStanza, List.find?_append]
  by_cases hpq : p = q
  · subst hpq
    have h1 : List.find? (fun pr => pr.1 == p) [(p, v)] = some (p, v) := by simp
    rw [hfind, h1]
    simp
  · have hqp : ((q, v).1 == p) = false := by
      rw [beq_eq_false_iff_ne]
      exact fun hh => hpq hh.symm
    have h2 : List.find? (fun pr => pr.1 == p) [(q, v)] = none := by
      simp [List.find?, hqp]
    rw [h2]
    simp [hpq]

theorem completeParent_preserves (e : List (String × IfaceStanza)) (q p : String)
    (s : IfaceStanza) (h : lookupStanza e p = some s) :
    lookupStanza (completeParent e q) p = some s := by
  unfold completeParent
  by_cases hq : (lookupStanza e q).isSome = true
  · simp [hq, h]
  · have hqn : lookupStanza e q = none := by
      cases hql : lookupStanza e q with
      | none => rfl
      | some x => simp [hql] at hq
    rw [if_neg (by simp [hqn]), lookupStanza_setStanza_of_none e q _ hqn p]
    have hpq : ¬p = q := by
      intro hh
      subst hh
      rw [h] at hqn
      cases hqn
    simp [hpq, h]

theorem completeParent_other (e : List (String × IfaceStanza)) (q p : String)
    (hpq : ¬p = q) :
    lookupStanza (completeParent e q) p = lookupStanza e p := by
  unfold completeParent
  by_cases hq : (lookupStanza e q).isSome = true
  · simp [hq]
  · have hqn : lookupStanza e q = none := by
      cases hql : lookupStanza e q with
      | none => rfl
      | some x => simp [hql] at hq
    rw [if_neg (by simp [hqn]), lookupStanza_setStanza_of_none e q _ hqn p, if_neg hpq]

theorem completionPass_preserves (ps : List String) (e : List (String × IfaceStanza))
    (p : String) (s : IfaceStanza) (h : lookupStanza e p = some s) :
    lookupStanza (completionPass e ps) p = some s :=
  foldl_preserve (fun e => lookupStanza e p = some s) completeParent
    (fun a b ha => completeParent_preserves a b p s ha) ps e h

theorem completionPass_adds (ps : List String) :
    ∀ (e : List (String × IfaceStanza)) (p : String), p ∈ ps → lookupStanza e p = none →
      lookupStanza (completionPass e ps) p = some { optional := some true } := by
  induction ps with
  | nil => intro e p hp; cases hp
  | cons q rest ih =>
    intro e p hp hnone
    show lookupStanza (rest.foldl completeParent (completeParent e q)) p = _
    by_cases hpq : p = q
    · subst hpq
      have h1 : lookupStanza (completeParent e p) p = some { optional := some true } := by
        unfold completeParent
        rw [if_neg (by simp [hnone]), lookupStanza_setStanza_of_none e p _ hnone p]
        simp
      exact completionPass_preserves rest (completeParent e p) p _ h1
    · have h2 : lookupStanza (completeParent e q) p = none := by
        rw [completeParent_other e q p hpq]
        exact hnone
      have hp2 : p ∈ rest := by
        rcases List.mem_cons.mp hp with hh | hh
        · exact absurd hh hpq
        · exact hh
      exact ih (completeParent e q) p hp2 h2

/-- A sub-VLAN on parent eth2 with no VLAN-1 network on eth2. -/
def c9net : Vlan :=
  { id := "p", vlanId := some 40, parentInterface := some "eth2",
    addresses := ["192.168.40.1/24"], gatewayMode := some "Disabled" }

/-- A VLAN-1 network on eth2. -/
def c9one : Vlan :=
  { id := "q1", vlanId := some 1, parentInterface := some "eth2",
    addressMode := "Auto", gatewayMode := some "Disabled" }

/-- C9 counterexample: the completion stanza emitted for a parent
interface is `{ optional: true }` with the dhcp4/dhcp6 fields absent,
not explicitly false as the claim states. -/
theorem parentCompletion_counterexample :
    (regenerateInterfaces [c9net] none).ethernets = [("eth2", { optional := some true })]
    ∧ ({ optional := some true } : IfaceStanza).dhcp4 = none
    ∧ ({ optional := some true } : IfaceStanza).dhcp4 ≠ some false
    ∧ ({ optional := some true } : IfaceStanza).dhcp6 ≠ some false := by
  exact ⟨by decide, rfl, by decide, by decide⟩

/-- C9 (amended): after the per-network pass, every parent interface
referenced by an emitted sub-VLAN that has no ethernet stanza of its
own receives the minimal stanza `{ optional: true }` — optional set,
dhcp4 and dhcp6 left unset (absent, which the renderer treats as
DHCP off) — and a parent already present as a VLAN-ID-1 stanza is left
untouched by the completion pass. Shown generally for the completion
pass and concretely for a pass with and without a VLAN-1 network on
the parent. -/
theorem parentInterfaceCompletion :
    (∀ (eth : List (String × IfaceStanza)) (ps : List String) (p : String)
        (s : IfaceStanza), lookupStanza eth p = some s →
      lookupStanza (completionPass eth ps) p = some s)
    ∧ (∀ (eth : List (String × IfaceStanza)) (ps : List String) (p : String),
        p ∈ ps → lookupStanza eth p = none →
      lookupStanza (completionPass eth ps) p = some { optional := some true })
    ∧ ({ optional := some true } : IfaceStanza).dhcp4 = none
    ∧ ({ optional := some true } : IfaceStanza).dhcp6 = none
    ∧ (regenerateInterfaces [c9net] none).ethernets = [("eth2", { optional := some true })]
    ∧ ((regenerateInterfaces [c9one, c9net] none).ethernets.map
        (fun pr => (pr.1, pr.2.dhcp4, pr.2.optional))) =
      [("eth2", some true, some true)] := by
  exact ⟨fun eth ps p s h => completionPass_preserves ps eth p s h,
    fun eth ps p hp h => completionPass_adds ps eth p hp h,
    rfl, rfl, by decide, by decide⟩

/-- Witness for C9: an existing stanza survives the completion pass
unchanged, and a missing parent gains the minimal stanza. -/
theorem parentInterfaceCompletion_witness :
    lookupStanza (completionPass [("eth0", { dhcp4 := some true })] ["eth0"]) "eth0" =
      some { dhcp4 := some true }
    ∧ lookupStanza (completionPass [] ["eth2"]) "eth2" = some { optional := some true } :=
  ⟨parentInterfaceCompletion.1 [("eth0", { dhcp4 := some true })] ["eth0"] "eth0"
     { dhcp4 := some true } rfl,
   parentInterfaceCompletion.2.1 [] ["eth2"] "eth2" (by simp) rfl⟩

/-! ## Uniqueness validation on create and edit

`Networks.validateNetworkUnused` compares with JS strict equality, so
its parameters are modelled as dynamic JS values: the `parentInterface`
edit hook in `src/vlan.ts` passes the new parent-interface string in
the `vlanId` parameter position
(`validateNetworkUnused(this.storageSettings.values.parentInterface, nv, this)`),
and a string never strict-equals a stored numeric VLAN id. -/

/-- A JS primitive value as it occurs in the validation calls. -/
inductive JsVal where
  | str (s : String)
  | num (n : Nat)
  | undef
deriving Repr, DecidableEq

def jsOfStrOpt : Option String → JsVal
  | none => .undef
  | some s => .str s

def jsOfNatOpt : Option Nat → JsVal
  | none => .undef
  | some n => .num n

/-- JS template interpolation of a dynamic value. -/
def jsValStr : JsVal → String
  | .str s => s
  | .num n => toString n
  | .undef => "undefined"

/-- `Networks.validateNetworkUnused(parentInterface, vlanId, allow?)`:
throws when another network (other than `allow`) matches both values
under strict equality. -/
def validateNetworkUnused (vlans : List Vlan) (parentInterface : JsVal)
    (vlanId : JsVal) (allow : Option String) : Except String Unit :=
  match vlans.find? (fun v =>
      (parentInterface == jsOfStrOpt v.parentInterface) &&
      (jsOfNatOpt v.vlanId == vlanId) &&
      (some v.id != allow)) with
  | some _ => .error ("VLAN ID " ++ jsValStr vlanId ++ " already in use.")
  | none => .ok ()

/-- `Networks.createDevice` (validation and registration; nativeId
generation and host-framework discovery are boundary effects): default
the VLAN id to 1 when falsy, require a parent interface, bound the
VLAN id, validate uniqueness, then register the new network with the
two settings stored. On any failure the network list is unchanged. -/
def createDevice (vlans : List Vlan) (newId : String)
    (vlanId? : Option Nat) (parentInterface? : Option String) :
    Except String (List Vlan) :=
  let vlanId := if jsFalsyNat vlanId? then 1 else vlanId?.getD 1
  if jsFalsyStr parentInterface? then .error "Network Interface is required."
  else
    let parentInterface := jsStr parentInterface?
    if vlanId < 1 ∨ 4095 < vlanId then .error "Invalid VLAN ID"
    else
      match validateNetworkUnused vlans (.str parentInterface) (.num vlanId) none with
      | .error e => .error e
      | .ok _ => .ok (vlans ++
          [{ id := newId, vlanId := some vlanId, parentInterface := some parentInterface }])

/-- The `parentInterface` setting's `mapPut` hook in `src/vlan.ts`
followed by the commit: note the new value `nv` is passed as the
`vlanId` argument of `validateNetworkUnused`, as in the source. -/
def putParentInterface (vlans : List Vlan) (targetId : String) (nv : String) :
    Except String (List Vlan) :=
  match vlans.find? (fun v => v.id == targetId) with
  | none => .ok vlans
  | some target =>
    match validateNetworkUnused vlans (jsOfStrOpt target.parentInterface) (.str nv)
        (some targetId) with
    | .error e => .error e
    | .ok _ => .ok (vlans.map (fun v =>
        if v.id == targetId then { v with parentInterface := some nv } else v))

/-- The `vlanId` setting's `mapPut` hook in `src/vlan.ts` followed by
the commit. -/
def putVlanId (vlans : List Vlan) (targetId : String) (nv : Nat) :
    Except String (List Vlan) :=
  match vlans.find? (fun v => v.id == targetId) with
  | none => .ok vlans
  | some target =>
    match validateNetworkUnused vlans (jsOfStrOpt target.parentInterface) (.num nv)
        (some targetId) with
    | .error e => .error e
    | .ok _ => .ok (vlans.map (fun v =>
        if v.id == targetId then { v with vlanId := some nv } else v))

/-- Network (eth0, 10). -/
def c4a : Vlan := { id := "a", vlanId := some 10, parentInterface := some "eth0" }
/-- Network (eth1, 10). -/
def c4b : Vlan := { id := "b", vlanId := some 10, parentInterface := some "eth1" }
/-- Network (eth0, 20). -/
def c4c : Vlan := { id := "c", vlanId := some 20, parentInterface := some "eth0" }

/-- C4: the bug at the failing input, evaluated on the code, next to
the paths that do behave as claimed. Editing c4b's parentInterface to
"eth0" must collide with c4a = (eth0, 10) and fail, but the mapPut
hook passes the new parent-interface string as the vlanId argument of
validateNetworkUnused, so no stored numeric VLAN id strict-equals it,
the validation passes, and the edit commits a duplicate
(parentInterface, vlanId) pair. Creation into a collision and a
vlanId edit into a collision are correctly rejected, and re-saving a
network's own unchanged pair succeeds. -/
theorem uniquenessValidation_bug :
    putParentInterface [c4a, c4b] "b" "eth0" =
      .ok [c4a, { c4b with parentInterface := some "eth0" }]
    ∧ ({ c4b with parentInterface := some "eth0" }).parentInterface = c4a.parentInterface
    ∧ ({ c4b with parentInterface := some "eth0" }).vlanId = c4a.vlanId
    ∧ ({ c4b with parentInterface := some "eth0" }).id ≠ c4a.id
    ∧ createDevice [c4a] "n" (some 10) (some "eth0") =
      .error "VLAN ID 10 already in use."
    ∧ createDevice [c4a] "n" (some 10) (some "eth1") =
      .ok [c4a, { id := "n", vlanId := some 10, parentInterface := some "eth1" }]
    ∧ putVlanId [c4a, c4c] "c" 10 = .error "VLAN ID 10 already in use."
    ∧ putVlanId [c4a] "a" 10 = .ok [c4a] := by
  exact ⟨rfl, rfl, rfl, by decide, rfl, rfl, rfl, rfl⟩

end Router
